import Mathlib

/-!
Verification of the CI/CD pipeline subsystem of the repository
(`Devopsandcloudautomation/devopsEx31/capstoneCICD.py`).

The Python classes are shallowly embedded as pure Lean functions.  External
collaborators (the container engine, the remote shell) are modelled through
environment records whose boolean/stream fields describe the outcome of each
external call, exactly where the source consults such an outcome.  Observable
side effects (engine calls, stage invocations) are recorded in event traces so
that claims about "X is invoked / is never invoked / happens before Y" become
statements about those traces.

Python-level conventions used throughout the embedding:
* a method that catches every exception and returns a boolean is embedded as a
  `Bool`-returning function;
* a constructor or method that can raise is embedded as an `Except String`
  value whose `error` carries the exception message;
* Python truthiness of an optional string (`None` and `""` are falsy) is
  embedded as the `truthy` predicate below.
-/

/-- `name:tag`, the full reference of an image, as built by several
f-strings in the source (image name and tag joined by a colon). -/
def fullName (name tag : String) : String := name ++ ":" ++ tag

/-- Python truthiness of an optional string: `None` and `""` are falsy. -/
def truthy : Option String → Bool
  | none => false
  | some s => if s = "" then false else true

/-- Python truthiness of `s.strip()`: the stripped string is non-empty iff
`s` contains at least one non-whitespace character. -/
def stripTruthy (s : String) : Bool :=
  s.data.any (fun c => !c.isWhitespace)

/-- The fields of `DockerImageBuilder` that identify the build artifact
(`self.__image_name`, `self.__image_tag`). -/
structure DockerImageBuilder where
  image_name : String
  image_tag : String
  deriving DecidableEq

/-- Engine-facing events of `DockerImageBuilder.__init__`. -/
inductive InitEvent where
  /-- `docker.from_env()` — connecting to the container engine -/
  | engineConnect
  /-- `self.__docker_client.ping()` -/
  | enginePing
  deriving DecidableEq

/-- `DockerImageBuilder.__init__`: connects to the engine (`docker.from_env`),
pings it (raising `ConnectionError` when unreachable), and only then checks
that the Dockerfile path exists (`FileNotFoundError`) and is a regular file
(`ValueError`).  `image_tag = none` defaults to the timestamp tag computed at
construction time, passed here as `timestampTag`; the build-context default is
not modelled because no claim mentions it. -/
def DockerImageBuilder.init (pingOk pathExists pathIsFile : Bool)
    (image_name : String) (image_tag : Option String) (timestampTag : String) :
    Except String DockerImageBuilder × List InitEvent :=
  let events := [InitEvent.engineConnect, InitEvent.enginePing]
  if !pingOk then
    (Except.error "Cannot connect to Docker daemon", events)
  else if !pathExists then
    (Except.error "Dockerfile not found", events)
  else if !pathIsFile then
    (Except.error "Path is not a file", events)
  else
    (Except.ok { image_name := image_name, image_tag := image_tag.getD timestampTag }, events)

/-- Observable events of one `CIPipeLine.execute` run. -/
inductive CIEvent where
  /-- the engine build call `images.build(...)` inside `build_image` -/
  | buildCall
  /-- `DockerContainerRunner.start_container` (engine `containers.run`) -/
  | startContainer
  /-- invocation of the ad-hoc test hook -/
  | testCall
  /-- `push_to_registry` through the registry client -/
  | pushCall
  /-- entry into `CIPipeLine.stop_step` -/
  | stopStepCall
  /-- entry into `CIPipeLine.remove_step` -/
  | removeStepCall
  /-- `DockerImageBuilder.rename_on_failure` -/
  | renameCall
  /-- the engine `images.remove` call in `CIPipeLine.cleanup_local_image` -/
  | cleanupImageCall
  deriving DecidableEq

/-- Environment of one CI run: the initial local image store plus the outcome
of every external call the run may make.  Each field corresponds to one place
where the source reads an outcome from the engine / test hook / registry. -/
structure CIEnv where
  /-- image references resolvable locally before the run
  (`docker_client.images.get` succeeds exactly on members) -/
  store : List String
  /-- whether the engine build call succeeds (`build_image` returns an image
  object, vs. `None` via its `except` branch) -/
  buildOk : Bool
  /-- outcome of `DockerContainerRunner.start_container` -/
  runOk : Bool
  /-- whether an ad-hoc test hook is set (`self.__adhoc_test`) -/
  hasTest : Bool
  /-- outcome of the test hook (an exception inside the hook is caught by
  `test_step` and folded into `false`) -/
  testOk : Bool
  /-- whether a registry client is set (`self.__docker_registry_client`) -/
  hasRegistry : Bool
  /-- outcome of `push_to_registry` -/
  pushOk : Bool
  /-- outcome of `DockerContainerRunner.stop_container` -/
  stopOk : Bool
  /-- outcome of `DockerContainerRunner.remove_container` (`false` also models
  the runner refusing to remove a still-running container) -/
  removeOk : Bool
  /-- outcome of the engine `images.remove` call in `cleanup_local_image` -/
  cleanupOk : Bool

/-- Mutable state of one CI run: the local image store, `self.__image`,
whether `self.__runner` is set, and the trace of events so far. -/
structure CIState where
  store : List String
  image : Option String
  hasRunner : Bool
  events : List CIEvent

/-- `DockerImageBuilder.image_exists`: `images.get(name:tag)` succeeds iff the
reference is in the local store; the `except` branch yields `False`. -/
def DockerImageBuilder.image_exists (b : DockerImageBuilder) (store : List String) : Bool :=
  if fullName b.image_name b.image_tag ∈ store then true else false

/-- `DockerImageBuilder.build_image`: invokes the engine build (event
`buildCall`); on success the engine creates the local reference `name:tag`
and the image handle is returned; on failure the `except` branch yields
`None` and the store is unchanged. -/
def DockerImageBuilder.build_image (env : CIEnv) (b : DockerImageBuilder) (st : CIState) :
    Option String × CIState :=
  let st1 := { st with events := st.events ++ [CIEvent.buildCall] }
  if env.buildOk then
    let fn := fullName b.image_name b.image_tag
    (some fn, { st1 with store := fn :: st1.store })
  else
    (none, st1)

/-- `DockerImageBuilder.rename_on_failure`: `images.get(name:tag)` — if the
reference exists, `image.tag(name, tag + "-failed")` adds the new reference
(the tag call of the engine creates an additional reference; it does not remove
the old one); if it does not exist the `except` branch yields `False`. -/
def DockerImageBuilder.rename_on_failure (b : DockerImageBuilder) (st : CIState) :
    Bool × CIState :=
  let st1 := { st with events := st.events ++ [CIEvent.renameCall] }
  if DockerImageBuilder.image_exists b st.store then
    (true, { st1 with store := fullName b.image_name (b.image_tag ++ "-failed") :: st1.store })
  else
    (false, st1)

/-- `CIPipeLine.build_step`: refuses to build when `name:tag` already exists,
otherwise builds and stores the image handle. -/
def CIPipeLine.build_step (env : CIEnv) (b : DockerImageBuilder) (st : CIState) :
    Bool × CIState :=
  if DockerImageBuilder.image_exists b st.store then
    (false, st)
  else
    let (img, st1) := DockerImageBuilder.build_image env b st
    (img.isSome, { st1 with image := img })

/-- `CIPipeLine.run_step`: fails if no image is available, otherwise creates
the runner and starts the container. -/
def CIPipeLine.run_step (env : CIEnv) (st : CIState) : Bool × CIState :=
  match st.image with
  | none => (false, st)
  | some _ =>
    (env.runOk, { st with hasRunner := true, events := st.events ++ [CIEvent.startContainer] })

/-- `CIPipeLine.test_step`: a missing hook is a no-op success; otherwise the
outcome of the hook (exceptions folded into `false` by the `except` of the source). -/
def CIPipeLine.test_step (env : CIEnv) (st : CIState) : Bool × CIState :=
  if env.hasTest then
    (env.testOk, { st with events := st.events ++ [CIEvent.testCall] })
  else
    (true, st)

/-- `CIPipeLine.push_step`: without a registry client the step is skipped
with success; otherwise the outcome of `push_to_registry`. -/
def CIPipeLine.push_step (env : CIEnv) (st : CIState) : Bool × CIState :=
  if env.hasRegistry then
    (env.pushOk, { st with events := st.events ++ [CIEvent.pushCall] })
  else
    (true, st)

/-- `CIPipeLine.stop_step`: records its invocation; delegates to
`stop_container` when a runner exists, else returns `True`. -/
def CIPipeLine.stop_step (env : CIEnv) (st : CIState) : Bool × CIState :=
  let st1 := { st with events := st.events ++ [CIEvent.stopStepCall] }
  if st.hasRunner then (env.stopOk, st1) else (true, st1)

/-- `CIPipeLine.remove_step`: records its invocation; delegates to
`remove_container` when a runner exists, else returns `True`. -/
def CIPipeLine.remove_step (env : CIEnv) (st : CIState) : Bool × CIState :=
  let st1 := { st with events := st.events ++ [CIEvent.removeStepCall] }
  if st.hasRunner then (env.removeOk, st1) else (true, st1)

/-- `CIPipeLine.mark_failed_build`: calls `rename_on_failure`, discarding its
boolean result (the builder is always set by the constructor). -/
def CIPipeLine.mark_failed_build (b : DockerImageBuilder) (st : CIState) : CIState :=
  (DockerImageBuilder.rename_on_failure b st).2

/-- `CIPipeLine.cleanup_local_image`: nothing to do without an image;
otherwise the engine removes the reference `image.tags[0]` (the built
`name:tag`), the `except` branch yielding `False`. -/
def CIPipeLine.cleanup_local_image (env : CIEnv) (st : CIState) : Bool × CIState :=
  match st.image with
  | none => (true, st)
  | some fn =>
    let st1 := { st with events := st.events ++ [CIEvent.cleanupImageCall] }
    if env.cleanupOk then
      (true, { st1 with store := st1.store.erase fn })
    else
      (false, st1)

/-- The stage loop shared by the `execute` of both pipelines: run the listed steps
in order, halting at the first failure
(`for ...: if not step_func(): ...; break`). -/
def runStageList : List (CIState → Bool × CIState) → CIState → Bool × CIState
  | [], st => (true, st)
  | f :: fs, st =>
    let (ok, st1) := f st
    if ok then runStageList fs st1 else (false, st1)

/-- `CIPipeLine.execute`: Build/Run/Test/Push with halt-on-first-failure,
then unconditionally `stop_step` and `remove_step` (results discarded), then
`mark_failed_build` and return `False` on failure, or `cleanup_local_image`
(result discarded) and return `True` on success. -/
def CIPipeLine.execute (env : CIEnv) (b : DockerImageBuilder) : Bool × CIState :=
  let st0 : CIState := { store := env.store, image := none, hasRunner := false, events := [] }
  let (status, st1) :=
    runStageList
      [CIPipeLine.build_step env b, CIPipeLine.run_step env,
       CIPipeLine.test_step env, CIPipeLine.push_step env] st0
  let st2 := (CIPipeLine.stop_step env st1).2
  let st3 := (CIPipeLine.remove_step env st2).2
  if status then
    (true, (CIPipeLine.cleanup_local_image env st3).2)
  else
    (false, CIPipeLine.mark_failed_build b st3)

/-- A CI environment in which the engine build succeeds and the container run
fails: the pipeline halts at the Run stage. -/
def envRunFails : CIEnv :=
  { store := [], buildOk := true, runOk := false, hasTest := false, testOk := true,
    hasRegistry := false, pushOk := true, stopOk := true, removeOk := true, cleanupOk := true }

/-- A CI environment in which `app:v1` is already resolvable locally. -/
def envPreExists : CIEnv :=
  { store := ["app:v1"], buildOk := true, runOk := true, hasTest := false, testOk := true,
    hasRegistry := false, pushOk := true, stopOk := true, removeOk := true, cleanupOk := true }

/-! ## Orchestrator -/

/-- One entry of the orchestrator status dictionary: Python `None`,
`True`/`False`, or the string `"Skipped"`. -/
inductive PhaseStatus where
  | unset
  | result (b : Bool)
  | skipped
  deriving DecidableEq

/-- The orchestrator `self.status` dictionary, initialised to
`CI: None, CD: None`. -/
structure OrchStatus where
  ci : PhaseStatus
  cd : PhaseStatus
  deriving DecidableEq

/-- Pipeline invocations made by `Orchestrator.execute`. -/
inductive OrchEvent where
  /-- `self.ci_pipeline.execute(...)` -/
  | ciExecuteCall
  /-- `self.cd_pipeline.execute()` -/
  | cdExecuteCall
  deriving DecidableEq

/-- `Orchestrator.execute`: runs CI when `run_ci`, returning early (with the
CD entry untouched) when CI fails; otherwise runs CD when `run_cd` and a CD
pipeline is set, else records `Skipped`.  `ciResult`/`cdResult` are the
results of the respective pipeline `execute` calls (the CI run itself is
modelled by `CIPipeLine.execute` above; the `skip_tests`/`push`/`push_latest`
parameters only configure that run and are absorbed into `ciResult`). -/
def Orchestrator.execute (hasCdPipeline : Bool) (ciResult cdResult : Bool)
    (run_ci run_cd : Bool) : OrchStatus × List OrchEvent :=
  if run_ci then
    if !ciResult then
      ({ ci := PhaseStatus.result ciResult, cd := PhaseStatus.unset }, [OrchEvent.ciExecuteCall])
    else if run_cd && hasCdPipeline then
      ({ ci := PhaseStatus.result ciResult, cd := PhaseStatus.result cdResult },
        [OrchEvent.ciExecuteCall, OrchEvent.cdExecuteCall])
    else
      ({ ci := PhaseStatus.result ciResult, cd := PhaseStatus.skipped }, [OrchEvent.ciExecuteCall])
  else
    if run_cd && hasCdPipeline then
      ({ ci := PhaseStatus.skipped, cd := PhaseStatus.result cdResult }, [OrchEvent.cdExecuteCall])
    else
      ({ ci := PhaseStatus.skipped, cd := PhaseStatus.skipped }, [])

/-! ## Registry client -/

/-- Python `str.split(":")` on the character list: splits at every colon,
keeping empty segments (so it never returns an empty list). -/
def splitCharsOnColon : List Char → List (List Char)
  | [] => [[]]
  | c :: rest =>
    let r := splitCharsOnColon rest
    if c = ':' then [] :: r
    else
      match r with
      | [] => [[c]]
      | g :: gs => (c :: g) :: gs

/-- Python `str.split(":")`. -/
def splitOnColon (s : String) : List String :=
  (splitCharsOnColon s.data).map String.mk

/-- The configuration of `DockerRegistryClient`: `self.__registry_url`
(environment default `"docker.io"`) and `self.__namespace` (`None` when
neither namespace variable is set). -/
structure DockerRegistryClient where
  registry_url : String
  name_space : Option String

/-- `DockerRegistryClient.name_extractor`: `image_obj.tags[0].split(":")[0]`;
an empty tag list raises `IndexError`, caught and folded into `None`.
An image object is represented by its list of tags. -/
def DockerRegistryClient.name_extractor (imageTags : List String) : Option String :=
  match imageTags with
  | [] => none
  | t :: _ => (splitOnColon t).get? 0

/-- `DockerRegistryClient.tag_extractor`: `image_obj.tags[0].split(":")[1]`;
a missing index raises `IndexError`, caught and (implicitly) folded into
`None`. -/
def DockerRegistryClient.tag_extractor (imageTags : List String) : Option String :=
  match imageTags with
  | [] => none
  | t :: _ => (splitOnColon t).get? 1

/-- Observable registry-side events of `push_to_registry`. -/
inductive RegEvent where
  /-- `image_obj.tag(target)` inside `_tag_image` -/
  | tagCall (target : String)
  /-- `images.push(repository, ...)` inside `_push` -/
  | pushCall (repo : String)
  deriving DecidableEq

/-- The outcomes of the external calls one `push_to_registry` run makes.
A push response stream is a list of frames; `some e` is a frame carrying an
error field `e`, `none` a frame without one. -/
structure PushEnv where
  /-- whether `image_obj.tag(target)` succeeds for the versioned tag -/
  tagOk : Bool
  /-- the response stream of the versioned push -/
  frames : List (Option String)
  /-- whether `image_obj.tag(target)` succeeds for the `latest` tag -/
  tagLatestOk : Bool
  /-- the response stream of the `latest` push -/
  latestFrames : List (Option String)

/-- `DockerRegistryClient._build_full_name`: the registry segment is omitted
exactly when the registry URL is one of `docker.io`, `index.docker.io`, `""`. -/
def DockerRegistryClient.build_full_name (c : DockerRegistryClient)
    (name tag name_space : String) : String :=
  if c.registry_url = "docker.io" ∨ c.registry_url = "index.docker.io" ∨ c.registry_url = "" then
    name_space ++ "/" ++ name ++ ":" ++ tag
  else
    c.registry_url ++ "/" ++ name_space ++ "/" ++ name ++ ":" ++ tag

/-- `DockerRegistryClient._tag_image`: tags the image as
`namespace/name:tag` (note: no registry segment); failure comes from the
engine (`tagOk`). -/
def DockerRegistryClient.tag_image (tagOk : Bool) (name_space img_name img_tag : String) :
    Bool × List RegEvent :=
  (tagOk, [RegEvent.tagCall (name_space ++ "/" ++ img_name ++ ":" ++ img_tag)])

/-- `DockerRegistryClient._push`: pushes `full_repo_name`, draining the
response stream and failing on the first frame that carries an error field. -/
def DockerRegistryClient.push (full_repo_name : String) (frames : List (Option String)) :
    Bool × List RegEvent :=
  (frames.all (fun f => f.isNone), [RegEvent.pushCall full_repo_name])

/-- `DockerRegistryClient.push_to_registry`: requires a configured namespace,
derives name/tag from the first tag of the image, applies `_tag_image`
(`namespace/name:tag`), pushes the `_build_full_name` reference, and repeats
tag+push with `latest` when `push_latest`. -/
def DockerRegistryClient.push_to_registry (c : DockerRegistryClient)
    (imageTags : List String) (env : PushEnv) (repo_namespace : Option String)
    (push_latest : Bool) : Bool × List RegEvent :=
  if !truthy c.name_space then
    (false, [])
  else
    let img_name := DockerRegistryClient.name_extractor imageTags
    let img_tag := DockerRegistryClient.tag_extractor imageTags
    if !(truthy img_name && truthy img_tag) then
      (false, [])
    else
      let n := img_name.getD ""
      let t := img_tag.getD ""
      let ns :=
        match repo_namespace with
        | some r => if r = "" then c.name_space.getD "" else r
        | none => c.name_space.getD ""
      let (okTag, ev1) := DockerRegistryClient.tag_image env.tagOk ns n t
      if !okTag then
        (false, ev1)
      else
        let full := DockerRegistryClient.build_full_name c n t ns
        let (okPush, ev2) := DockerRegistryClient.push full env.frames
        if !okPush then
          (false, ev1 ++ ev2)
        else if push_latest then
          let (okTagL, ev3) := DockerRegistryClient.tag_image env.tagLatestOk ns n "latest"
          if !okTagL then
            (false, ev1 ++ ev2 ++ ev3)
          else
            let latest := DockerRegistryClient.build_full_name c n "latest" ns
            let (okPushL, ev4) := DockerRegistryClient.push latest env.latestFrames
            (okPushL, ev1 ++ ev2 ++ ev3 ++ ev4)
        else
          (true, ev1 ++ ev2)

/-! ## SSH session and remote deployer (exception-aware embedding)

`SSHClientManager.execute_command` ignores the boolean result of its
auto-`connect()` and unconditionally calls `exec_command` on the paramiko
client; on a client whose transport was never established that call raises
`SSHException("SSH session not active")`.  Nothing between the deployer
methods and `CDPipeline.execute` catches it, so this part of the embedding is
written in `Except`, with `Except.error` the propagating exception. -/

/-- The external behaviour of the SSH transport: whether the `paramiko`
`connect` succeeds, and the `(stdout, stderr, exit_status)` triple a
successfully executed remote command returns. -/
structure SSHConfig where
  connectOk : Bool
  remote : String → String × String × Int

/-- `self.__connected` of `SSHClientManager`. -/
structure SSHState where
  connected : Bool

/-- `SSHClientManager.connect`: a no-op when already connected; otherwise one
transport connect attempt, the `except` branch yielding `False` with the
session still unconnected. -/
def SSHClientManager.connect (cfg : SSHConfig) (st : SSHState) : Bool × SSHState :=
  if st.connected then
    (true, st)
  else if cfg.connectOk then
    (true, { connected := true })
  else
    (false, st)

/-- `SSHClientManager.execute_command`: auto-connects when not connected but
ignores the result of `connect`; `exec_command` on a client without an active
session raises (`Except.error`), otherwise it returns the remote triple. -/
def SSHClientManager.execute_command (cfg : SSHConfig) (st : SSHState) (command : String) :
    Except String ((String × String × Int) × SSHState) :=
  let st1 := if st.connected then st else (SSHClientManager.connect cfg st).2
  if st1.connected then
    Except.ok (cfg.remote command, st1)
  else
    Except.error "SSH session not active"

/-- The mutable state of `RemoteDockerDeployer`: its SSH session,
`self.__pulled_image`, and `self.__existing_container`. -/
structure DeployerState where
  ssh : SSHState
  pulled : Option String
  container : String

/-- `RemoteDockerDeployer.pull_image`: warns and fails on an empty name,
otherwise runs `docker pull` remotely; the stage outcome is the remote exit
status, and a successful pull records the pulled image. -/
def RemoteDockerDeployer.pull_image (cfg : SSHConfig) (d : DeployerState)
    (image_name : String) : Except String (Bool × DeployerState) :=
  if image_name = "" then
    Except.ok (false, d)
  else
    match SSHClientManager.execute_command cfg d.ssh ("docker pull " ++ image_name) with
    | Except.error e => Except.error e
    | Except.ok ((_, _, code), ssh1) =>
      if code ≠ 0 then
        Except.ok (false, { d with ssh := ssh1 })
      else
        Except.ok (true, { d with ssh := ssh1, pulled := some image_name })

/-- `RemoteDockerDeployer.stop_existing_container`: nothing to stop without a
container name; otherwise `docker rm -f ... || true` remotely, succeeding on
exit status 0. -/
def RemoteDockerDeployer.stop_existing_container (cfg : SSHConfig) (d : DeployerState) :
    Except String (Bool × DeployerState) :=
  if d.container = "" then
    Except.ok (true, d)
  else
    match SSHClientManager.execute_command cfg d.ssh
        ("docker rm -f " ++ d.container ++ " 2>/dev/null || true") with
    | Except.error e => Except.error e
    | Except.ok ((_, _, code), ssh1) =>
      if code = 0 then
        Except.ok (true, { d with ssh := ssh1 })
      else
        Except.ok (false, { d with ssh := ssh1 })

/-- `RemoteDockerDeployer.run_new_container`: fails without a pulled image;
otherwise `docker run -d --name ...` remotely, succeeding on exit status 0. -/
def RemoteDockerDeployer.run_new_container (cfg : SSHConfig) (d : DeployerState) :
    Except String (Bool × DeployerState) :=
  match d.pulled with
  | none => Except.ok (false, d)
  | some img =>
    match SSHClientManager.execute_command cfg d.ssh
        ("docker run -d --name " ++ d.container ++ " " ++ img) with
    | Except.error e => Except.error e
    | Except.ok ((_, _, code), ssh1) =>
      if code ≠ 0 then
        Except.ok (false, { d with ssh := ssh1 })
      else
        Except.ok (true, { d with ssh := ssh1 })

/-! ## Remote log fetch with bounded retry (`RemoteDockerDeployer.fetch_logs`) -/

/-- The retry loop of `fetch_logs` (`for attempt in range(max_retries)`), over
the list of attempt indices.  `attempts i` is the `(stdout, stderr,
exit_status)` triple of the i-th `docker logs` command; `last` carries the
triple of the previous iteration (the loop variables after a completed
iteration).  Returns the triple held after the loop together with the total
number of seconds slept: each empty-output iteration prints a retry notice and
sleeps `delay` seconds — also on the final iteration — while non-empty output
breaks out without sleeping. -/
def RemoteDockerDeployer.fetch_logs_loop (attempts : Nat → String × String × Int)
    (delay : Nat) (last : String × String × Int) :
    List Nat → (String × String × Int) × Nat
  | [] => (last, 0)
  | a :: rest =>
    let r := attempts a
    if stripTruthy r.1 then
      (r, 0)
    else
      let next := RemoteDockerDeployer.fetch_logs_loop attempts delay r rest
      (next.1, delay + next.2)

/-- `RemoteDockerDeployer.fetch_logs`: warns and returns `None` without a
container name; otherwise polls `docker logs` up to `max_retries` times,
returning `None` when the exit status held after the loop is non-zero and the
raw stdout of the last executed attempt otherwise, paired with the total
seconds slept.  (The source reads the loop variable `code` after the loop, so
`max_retries = 0` would raise `NameError` there; the model is only used with
`max_retries ≥ 1`.) -/
def RemoteDockerDeployer.fetch_logs (container : String)
    (attempts : Nat → String × String × Int) (max_retries delay : Nat) :
    Option String × Nat :=
  if container = "" then
    (none, 0)
  else
    let (r, slept) :=
      RemoteDockerDeployer.fetch_logs_loop attempts delay ("", "", 0) (List.range max_retries)
    if r.2.2 ≠ 0 then (none, slept) else (some r.1, slept)

/-! ## CDPipeline — boolean-outcome embedding

This embedding abstracts each stage by its outcome, exactly like the CI
embedding above; it is the right level for claims about the control flow of
`CDPipeline.execute` when no exception escapes the SSH layer (the exception-aware
embedding follows below). -/

/-- Stage invocations of one `CDPipeline.execute` run. -/
inductive CDEvent where
  /-- entry into `CDPipeline.pull_step` -/
  | pullStepCall
  /-- entry into `CDPipeline.stop_step` -/
  | stopStepCall
  /-- entry into `CDPipeline.run_step` -/
  | runStepCall
  /-- entry into `CDPipeline.logs_step` -/
  | logsStepCall
  /-- entry into `CDPipeline.cleanup_local_image` -/
  | cleanupCall
  deriving DecidableEq

/-- Environment of one CD run: the constructor arguments and the outcome of
the external work of each stage. -/
structure CDEnv where
  /-- `self.__image_to_deploy` (constructor argument `pull_image`) -/
  image_to_deploy : Option String
  /-- whether `self.__registry_client` is set -/
  hasRegistryClient : Bool
  /-- `registry_client.get_pushed_image_name()` -/
  pushedName : Option String
  /-- outcome of `deployer.pull_image` -/
  pullOk : Bool
  /-- outcome of `deployer.stop_existing_container` -/
  stopOk : Bool
  /-- outcome of `deployer.run_new_container` -/
  runOk : Bool
  /-- outcome of `logs_step` (`fetch_logs` returned something other than `None`) -/
  logsOk : Bool
  /-- outcome of `cleanup_local_image` -/
  cleanupOk : Bool

/-- `CDPipeline.pull_step`: resolves the image to deploy (falling back to the
last pushed name of the registry client), skips with success when none is
configured, otherwise pulls. -/
def CDPipeline.pull_step (env : CDEnv) : Bool × List CDEvent :=
  let img :=
    if truthy env.image_to_deploy then env.image_to_deploy
    else if env.hasRegistryClient then env.pushedName
    else env.image_to_deploy
  if !truthy img then
    (true, [CDEvent.pullStepCall])
  else
    (env.pullOk, [CDEvent.pullStepCall])

/-- `CDPipeline.stop_step`: delegates to `stop_existing_container`. -/
def CDPipeline.stop_step (env : CDEnv) : Bool × List CDEvent :=
  (env.stopOk, [CDEvent.stopStepCall])

/-- `CDPipeline.run_step`: delegates to `run_new_container`. -/
def CDPipeline.run_step (env : CDEnv) : Bool × List CDEvent :=
  (env.runOk, [CDEvent.runStepCall])

/-- `CDPipeline.logs_step`: waits, fetches logs, and returns whether logs were
retrieved (`fetch_logs` not `None`). -/
def CDPipeline.logs_step (env : CDEnv) : Bool × List CDEvent :=
  (env.logsOk, [CDEvent.logsStepCall])

/-- `CDPipeline.cleanup_local_image`: removes the locally pulled image,
catching every engine exception. -/
def CDPipeline.cleanup_local_image (env : CDEnv) : Bool × List CDEvent :=
  (env.cleanupOk, [CDEvent.cleanupCall])

/-- `CDPipeline.execute`: Pull/Stop/Run with halt-on-first-failure, then
unconditionally `logs_step` and `cleanup_local_image` with their results
discarded, returning `self.__status`. -/
def CDPipeline.execute (env : CDEnv) : Bool × List CDEvent :=
  let (s1, e1) := CDPipeline.pull_step env
  let (status, stageEvents) :=
    if s1 then
      let (s2, e2) := CDPipeline.stop_step env
      if s2 then
        let (s3, e3) := CDPipeline.run_step env
        (s3, e1 ++ e2 ++ e3)
      else
        (false, e1 ++ e2)
    else
      (false, e1)
  let (_, e4) := CDPipeline.logs_step env
  let (_, e5) := CDPipeline.cleanup_local_image env
  (status, stageEvents ++ e4 ++ e5)

/-! ## CDPipeline — exception-aware embedding -/

/-- The state `CDPipeline` threads through its stages: the deployer and
`self.__image_to_deploy`. -/
structure CDStateE where
  deployer : DeployerState
  image_to_deploy : Option String

/-- `CDPipeline.pull_step` over the exception-aware deployer. -/
def CDPipeline.pull_stepE (cfg : SSHConfig) (hasRegistryClient : Bool)
    (pushedName : Option String) (st : CDStateE) : Except String (Bool × CDStateE) :=
  let img :=
    if truthy st.image_to_deploy then st.image_to_deploy
    else if hasRegistryClient then pushedName
    else st.image_to_deploy
  if !truthy img then
    Except.ok (true, { st with image_to_deploy := img })
  else
    match RemoteDockerDeployer.pull_image cfg st.deployer (img.getD "") with
    | Except.error e => Except.error e
    | Except.ok (ok, d1) => Except.ok (ok, { deployer := d1, image_to_deploy := img })

/-- `CDPipeline.stop_step` over the exception-aware deployer. -/
def CDPipeline.stop_stepE (cfg : SSHConfig) (st : CDStateE) :
    Except String (Bool × CDStateE) :=
  match RemoteDockerDeployer.stop_existing_container cfg st.deployer with
  | Except.error e => Except.error e
  | Except.ok (ok, d1) => Except.ok (ok, { st with deployer := d1 })

/-- `CDPipeline.run_step` over the exception-aware deployer. -/
def CDPipeline.run_stepE (cfg : SSHConfig) (st : CDStateE) :
    Except String (Bool × CDStateE) :=
  match RemoteDockerDeployer.run_new_container cfg st.deployer with
  | Except.error e => Except.error e
  | Except.ok (ok, d1) => Except.ok (ok, { st with deployer := d1 })

/-- The retry loop of `fetch_logs` over the exception-aware SSH session: each
iteration runs `docker logs` remotely, and an SSH-level exception aborts the
whole loop. -/
def RemoteDockerDeployer.fetch_logs_loopE (cfg : SSHConfig) (d : DeployerState)
    (last : String × String × Int) :
    List Nat → Except String ((String × String × Int) × DeployerState)
  | [] => Except.ok (last, d)
  | _ :: rest =>
    match SSHClientManager.execute_command cfg d.ssh ("docker logs " ++ d.container) with
    | Except.error e => Except.error e
    | Except.ok (r, ssh1) =>
      let d1 := { d with ssh := ssh1 }
      if stripTruthy r.1 then
        Except.ok (r, d1)
      else
        RemoteDockerDeployer.fetch_logs_loopE cfg d1 r rest

/-- `RemoteDockerDeployer.fetch_logs` (default `max_retries=5`) over the
exception-aware SSH session. -/
def RemoteDockerDeployer.fetch_logsE (cfg : SSHConfig) (d : DeployerState) :
    Except String (Option String × DeployerState) :=
  if d.container = "" then
    Except.ok (none, d)
  else
    match RemoteDockerDeployer.fetch_logs_loopE cfg d ("", "", 0) (List.range 5) with
    | Except.error e => Except.error e
    | Except.ok ((out, _, code), d1) =>
      if code ≠ 0 then Except.ok (none, d1) else Except.ok (some out, d1)

/-- `CDPipeline.logs_step` over the exception-aware deployer. -/
def CDPipeline.logs_stepE (cfg : SSHConfig) (st : CDStateE) :
    Except String (Bool × CDStateE) :=
  match RemoteDockerDeployer.fetch_logsE cfg st.deployer with
  | Except.error e => Except.error e
  | Except.ok (logs, d1) =>
    match logs with
    | some _ => Except.ok (true, { st with deployer := d1 })
    | none => Except.ok (false, { st with deployer := d1 })

/-- `CDPipeline.execute` over the exception-aware deployer: Pull/Stop/Run with
halt-on-first-failure, then `logs_step` (result discarded) and
`cleanup_local_image` (local engine only; it catches every exception and its
result is discarded), returning `self.__status`.  No handler exists anywhere
on this path, so an SSH-level exception propagates out of `execute`. -/
def CDPipeline.executeE (cfg : SSHConfig) (hasRegistryClient : Bool)
    (pushedName : Option String) (st : CDStateE) : Except String Bool :=
  match CDPipeline.pull_stepE cfg hasRegistryClient pushedName st with
  | Except.error e => Except.error e
  | Except.ok (ok1, st1) =>
    let afterStages : Except String (Bool × CDStateE) :=
      if ok1 then
        match CDPipeline.stop_stepE cfg st1 with
        | Except.error e => Except.error e
        | Except.ok (ok2, st2) =>
          if ok2 then
            match CDPipeline.run_stepE cfg st2 with
            | Except.error e => Except.error e
            | Except.ok (ok3, st3) => Except.ok (ok3, st3)
          else
            Except.ok (false, st2)
      else
        Except.ok (false, st1)
    match afterStages with
    | Except.error e => Except.error e
    | Except.ok (status, stS) =>
      match CDPipeline.logs_stepE cfg stS with
      | Except.error e => Except.error e
      | Except.ok (_, _) => Except.ok status

/-! ## Concrete inputs used by counterexamples and witnesses -/

/-- A registry client configured with a non-default registry URL. -/
def exampleRegistry : DockerRegistryClient :=
  { registry_url := "registry.example.com", name_space := some "ns" }

/-- A registry client configured with the default public registry. -/
def exampleRegistryDefault : DockerRegistryClient :=
  { registry_url := "docker.io", name_space := some "ns" }

/-- A push environment where tagging succeeds and both response streams hold a
single error-free frame. -/
def examplePushEnv : PushEnv :=
  { tagOk := true, frames := [none], tagLatestOk := true, latestFrames := [none] }

/-- An SSH transport whose connection attempts fail. -/
def sshCannotConnect : SSHConfig :=
  { connectOk := false, remote := fun _ => ("", "", 0) }

/-- A CD pipeline state with a never-connected SSH session, a target container
and an image to deploy. -/
def cdStateDisconnected : CDStateE :=
  { deployer := { ssh := { connected := false }, pulled := none,
                  container := "test-app-container" },
    image_to_deploy := some "ns/app:v1" }

/-- Remote log attempts: empty output on the first four, non-empty output but
non-zero exit status on the fifth. -/
def attemptsBadExit : Nat → String × String × Int :=
  fun i => if i < 4 then ("", "", 0) else ("container-log-line", "", 1)

/-- Remote log attempts: empty output on the first four, non-empty successful
output on the fifth. -/
def attemptsFifthOk : Nat → String × String × Int :=
  fun i => if i < 4 then ("", "", 0) else ("container-log-line", "", 0)

/-! ## C1 -/

/-- C1 (counterexample to the claim as stated): a run that fails at the Run
stage after a successful build ends with `execute` returning `False`, the
reference `app:v1-failed` existing — and `app:v1` STILL existing: the rename
adds the failed tag without removing the original, so `name:tag` does not
cease to exist. -/
theorem C1_counterexample :
    (CIPipeLine.execute envRunFails ⟨"app", "v1"⟩).1 = false ∧
    "app:v1" ∈ (CIPipeLine.execute envRunFails ⟨"app", "v1"⟩).2.store ∧
    "app:v1-failed" ∈ (CIPipeLine.execute envRunFails ⟨"app", "v1"⟩).2.store := by
  decide

set_option maxHeartbeats 1000000 in
/-- C1 (amended): for every CI pipeline run that ends as Failed in which the
image `name:tag` exists (the engine build succeeded, or the reference already
existed locally), after `execute` returns both `name:tag` and
`name:tag-failed` exist locally: `rename_on_failure` adds the `-failed`
reference and does not remove the original. -/
theorem C1_failed_tags (env : CIEnv) (b : DockerImageBuilder)
    (hfail : (CIPipeLine.execute env b).1 = false)
    (hbuilt : env.buildOk = true ∨ fullName b.image_name b.image_tag ∈ env.store) :
    fullName b.image_name b.image_tag ∈ (CIPipeLine.execute env b).2.store ∧
    fullName b.image_name (b.image_tag ++ "-failed") ∈ (CIPipeLine.execute env b).2.store := by
  obtain ⟨store, buildOk, runOk, hasTest, testOk, hasRegistry, pushOk, stopOk, removeOk, cleanupOk⟩ := env
  by_cases hex : fullName b.image_name b.image_tag ∈ store <;>
    cases buildOk <;> cases runOk <;> cases hasTest <;> cases testOk <;>
    cases hasRegistry <;> cases pushOk <;> cases cleanupOk <;>
    simp_all [CIPipeLine.execute, runStageList, CIPipeLine.build_step, CIPipeLine.run_step,
      CIPipeLine.test_step, CIPipeLine.push_step, CIPipeLine.stop_step, CIPipeLine.remove_step,
      CIPipeLine.mark_failed_build, DockerImageBuilder.rename_on_failure,
      CIPipeLine.cleanup_local_image, DockerImageBuilder.build_image,
      DockerImageBuilder.image_exists]

/-- C1 witness: the amended statement at the concrete failing run. -/
theorem C1_failed_tags_witness :
    "app:v1" ∈ (CIPipeLine.execute envRunFails ⟨"app", "v1"⟩).2.store ∧
    "app:v1-failed" ∈ (CIPipeLine.execute envRunFails ⟨"app", "v1"⟩).2.store :=
  C1_failed_tags envRunFails ⟨"app", "v1"⟩ (by decide) (Or.inl (by decide))

/-! ## C2 -/

/-- C2 (counterexample to the claim as stated): constructing a
`DockerImageBuilder` with a reachable engine but a missing Dockerfile path
raises `FileNotFoundError` — yet the engine has already been contacted: the
constructor connects and pings before checking the path, so the raise is not
"before any call to the container engine". -/
theorem C2_counterexample :
    (DockerImageBuilder.init true false true "app" none "20250101-000000").1 =
      Except.error "Dockerfile not found" ∧
    InitEvent.enginePing ∈ (DockerImageBuilder.init true false true "app" none "20250101-000000").2 := by
  exact ⟨rfl, by decide⟩

/-- C2 (amended): for every constructor call with a reachable engine and a
`dockerfile_path` that does not exist, the constructor raises
`FileNotFoundError` before any build is attempted — but only after connecting
to the container engine and pinging it: the engine connection and ping
precede the path check. -/
theorem C2_raises_after_ping (pathIsFile : Bool) (image_name : String)
    (image_tag : Option String) (timestampTag : String) :
    (DockerImageBuilder.init true false pathIsFile image_name image_tag timestampTag).1 =
      Except.error "Dockerfile not found" ∧
    (DockerImageBuilder.init true false pathIsFile image_name image_tag timestampTag).2 =
      [InitEvent.engineConnect, InitEvent.enginePing] := by
  simp [DockerImageBuilder.init]

/-! ## C3 -/

/-- C3 (counterexample to the claim as stated): with `run_ci = run_cd = true`
and a failing CI pipeline, the orchestrator returns early; the CD pipeline is
never invoked, but the aggregate status does NOT record `CD: Skipped` — the
CD entry is left at its initial `None`. -/
theorem C3_counterexample :
    (Orchestrator.execute true false false true true).1.cd ≠ PhaseStatus.skipped ∧
    (Orchestrator.execute true false false true true).1.cd = PhaseStatus.unset ∧
    OrchEvent.cdExecuteCall ∉ (Orchestrator.execute true false false true true).2 := by
  decide

/-- C3 (amended): for every `Orchestrator.execute(run_ci=True, run_cd=True)`
in which the CI pipeline returns `False`, the `execute` of the CD pipeline (and
hence every CD stage function) is never invoked, and the returned aggregate
status leaves the CD phase at its initial `None` — not `Skipped`. -/
theorem C3_cd_never_invoked (hasCdPipeline cdResult : Bool) :
    OrchEvent.cdExecuteCall ∉ (Orchestrator.execute hasCdPipeline false cdResult true true).2 ∧
    (Orchestrator.execute hasCdPipeline false cdResult true true).1.cd = PhaseStatus.unset := by
  cases hasCdPipeline <;> cases cdResult <;> decide

/-! ## C4 -/

/-- C4 (counterexample to the claim as stated): with a non-default registry
URL, a fully successful `push_to_registry` tags the local image as
`ns/app:v1` — without the registry segment — while pushing
`registry.example.com/ns/app:v1`; the claimed tag target
`{registry}/{namespace}/{name}:{tag}` is never applied. -/
theorem C4_counterexample :
    (DockerRegistryClient.push_to_registry exampleRegistry ["app:v1"] examplePushEnv none false).1 = true ∧
    (DockerRegistryClient.push_to_registry exampleRegistry ["app:v1"] examplePushEnv none false).2 =
      [RegEvent.tagCall "ns/app:v1", RegEvent.pushCall "registry.example.com/ns/app:v1"] ∧
    RegEvent.tagCall "registry.example.com/ns/app:v1" ∉
      (DockerRegistryClient.push_to_registry exampleRegistry ["app:v1"] examplePushEnv none false).2 := by
  decide

set_option maxHeartbeats 1000000 in
/-- C4 (amended): for every successful `push_to_registry` call, the local
image is tagged `{namespace}/{name}:{tag}` — the registry segment is never
part of the applied tag — before the push; the reference pushed is
the `_build_full_name` result with the registry
segment omitted exactly when the registry URL is the default public registry;
and success implies no frame of the push response stream carried an error
field. -/
theorem C4_tagging (c : DockerRegistryClient) (imageTags : List String) (env : PushEnv)
    (push_latest : Bool)
    (h : (DockerRegistryClient.push_to_registry c imageTags env none push_latest).1 = true) :
    (DockerRegistryClient.push_to_registry c imageTags env none push_latest).2.take 2 =
      [RegEvent.tagCall ((c.name_space.getD "") ++ "/" ++
          ((DockerRegistryClient.name_extractor imageTags).getD "") ++ ":" ++
          ((DockerRegistryClient.tag_extractor imageTags).getD "")),
       RegEvent.pushCall (DockerRegistryClient.build_full_name c
          ((DockerRegistryClient.name_extractor imageTags).getD "")
          ((DockerRegistryClient.tag_extractor imageTags).getD "")
          (c.name_space.getD ""))] ∧
    env.frames.all (fun f => f.isNone) = true := by
  unfold DockerRegistryClient.push_to_registry at h ⊢
  simp only [DockerRegistryClient.tag_image, DockerRegistryClient.push] at h ⊢
  split_ifs at h ⊢ <;> simp_all <;> assumption

/-- C4 witness: the amended statement at a concrete successful push against
the default public registry. -/
theorem C4_tagging_witness :
    (DockerRegistryClient.push_to_registry exampleRegistryDefault ["app:v1"] examplePushEnv none false).2.take 2 =
      [RegEvent.tagCall "ns/app:v1", RegEvent.pushCall "ns/app:v1"] ∧
    examplePushEnv.frames.all (fun f => f.isNone) = true :=
  C4_tagging exampleRegistryDefault ["app:v1"] examplePushEnv false (by decide)

/-! ## C5 -/

set_option maxHeartbeats 1000000 in
/-- C5: every `CIPipeLine.execute` run invokes `stop_step` exactly once and
`remove_step` exactly once, in that order, whatever the stage outcomes —
whether the pipeline halts at Build, Run, Test or Push, or all stages
succeed. -/
theorem C5_cleanup_once (env : CIEnv) (b : DockerImageBuilder) :
    (CIPipeLine.execute env b).2.events.count CIEvent.stopStepCall = 1 ∧
    (CIPipeLine.execute env b).2.events.count CIEvent.removeStepCall = 1 ∧
    [CIEvent.stopStepCall, CIEvent.removeStepCall].Sublist (CIPipeLine.execute env b).2.events := by
  obtain ⟨store, buildOk, runOk, hasTest, testOk, hasRegistry, pushOk, stopOk, removeOk, cleanupOk⟩ := env
  by_cases hex : fullName b.image_name b.image_tag ∈ store <;>
    cases buildOk <;> cases runOk <;> cases hasTest <;> cases testOk <;>
    cases hasRegistry <;> cases pushOk <;> cases cleanupOk <;>
    simp [CIPipeLine.execute, runStageList, CIPipeLine.build_step, CIPipeLine.run_step,
      CIPipeLine.test_step, CIPipeLine.push_step, CIPipeLine.stop_step, CIPipeLine.remove_step,
      CIPipeLine.mark_failed_build, DockerImageBuilder.rename_on_failure,
      CIPipeLine.cleanup_local_image, DockerImageBuilder.build_image,
      DockerImageBuilder.image_exists, hex] <;>
    decide

/-! ## C6 -/

set_option maxHeartbeats 1000000 in
/-- C6: `CDPipeline.execute` always invokes `logs_step` exactly once, after
the Pull/Stop/Run stages have reached their terminal outcome (only the final
`cleanup_local_image` follows it), and the boolean `execute` returns is
independent of the `logs_step` result. -/
theorem C6_logs_best_effort (env : CDEnv) (l : Bool) :
    (CDPipeline.execute { env with logsOk := l }).1 = (CDPipeline.execute env).1 ∧
    (CDPipeline.execute env).2.count CDEvent.logsStepCall = 1 ∧
    (CDPipeline.execute env).2.reverse.take 2 = [CDEvent.cleanupCall, CDEvent.logsStepCall] := by
  obtain ⟨itd, hrc, pn, pullOk, stopOk, runOk, logsOk, cleanupOk⟩ := env
  cases pullOk <;> cases stopOk <;> cases runOk <;>
    simp [CDPipeline.execute, CDPipeline.pull_step, CDPipeline.stop_step, CDPipeline.run_step,
      CDPipeline.logs_step, CDPipeline.cleanup_local_image] <;>
    split_ifs <;> simp

/-! ## C7 -/

set_option maxHeartbeats 1000000 in
/-- C7: whenever `name:tag` is already resolvable locally, `build_step`
returns `False` and the whole run never invokes the build call of the engine. -/
theorem C7_build_refused (env : CIEnv) (b : DockerImageBuilder)
    (hex : fullName b.image_name b.image_tag ∈ env.store) :
    (CIPipeLine.build_step env b
      { store := env.store, image := none, hasRunner := false, events := [] }).1 = false ∧
    CIEvent.buildCall ∉ (CIPipeLine.execute env b).2.events := by
  obtain ⟨store, buildOk, runOk, hasTest, testOk, hasRegistry, pushOk, stopOk, removeOk, cleanupOk⟩ := env
  cases buildOk <;> cases runOk <;> cases hasTest <;> cases testOk <;>
    cases hasRegistry <;> cases pushOk <;> cases cleanupOk <;>
    simp_all [CIPipeLine.execute, runStageList, CIPipeLine.build_step, CIPipeLine.run_step,
      CIPipeLine.test_step, CIPipeLine.push_step, CIPipeLine.stop_step, CIPipeLine.remove_step,
      CIPipeLine.mark_failed_build, DockerImageBuilder.rename_on_failure,
      CIPipeLine.cleanup_local_image, DockerImageBuilder.build_image,
      DockerImageBuilder.image_exists]

/-- C7 witness: the statement at a concrete store already holding `app:v1`. -/
theorem C7_build_refused_witness :
    (CIPipeLine.build_step envPreExists ⟨"app", "v1"⟩
      { store := envPreExists.store, image := none, hasRunner := false, events := [] }).1 = false ∧
    CIEvent.buildCall ∉ (CIPipeLine.execute envPreExists ⟨"app", "v1"⟩).2.events :=
  C7_build_refused envPreExists ⟨"app", "v1"⟩ (by decide)

/-! ## C8 -/

/-- C8 (evaluating the code at the failing input): over an SSH transport that
fails to connect, the auto-connect in `execute_command` leaves the session
unconnected, its ignored boolean notwithstanding, and the subsequent
`exec_command` raises; nothing on the path through
`RemoteDockerDeployer.pull_image` and `CDPipeline.pull_step` catches the
exception, so it propagates out of `CDPipeline.execute` instead of being
returned as a stage boolean. -/
theorem C8_ssh_exception_escapes :
    CDPipeline.executeE sshCannotConnect false none cdStateDisconnected =
      Except.error "SSH session not active" := by
  rfl

/-! ## C9 -/

/-- C9 (counterexample to the claim as stated): when the first four attempts
read empty logs and the fifth reads non-empty output but exits with a
non-zero status, `fetch_logs` returns `None` — not the output of the fifth
attempt — after the four 1-second sleeps. -/
theorem C9_counterexample :
    RemoteDockerDeployer.fetch_logs "test-app-container" attemptsBadExit 5 1 = (none, 4) ∧
    stripTruthy (attemptsBadExit 4).1 = true := by
  decide

/-- C9 (amended): a `fetch_logs` call with `max_retries = 5`, `delay = 1`,
empty log output on the first four attempts and non-empty output with a zero
exit status on the fifth returns the output of the fifth attempt, having slept
exactly 4 seconds (four sleeps of 1 second, one after each empty attempt). -/
theorem C9_retry_returns_fifth (container : String) (attempts : Nat → String × String × Int)
    (hc : container ≠ "")
    (h0 : stripTruthy (attempts 0).1 = false) (h1 : stripTruthy (attempts 1).1 = false)
    (h2 : stripTruthy (attempts 2).1 = false) (h3 : stripTruthy (attempts 3).1 = false)
    (h4 : stripTruthy (attempts 4).1 = true) (hcode : (attempts 4).2.2 = 0) :
    RemoteDockerDeployer.fetch_logs container attempts 5 1 = (some (attempts 4).1, 4) := by
  have hr : List.range 5 = [0, 1, 2, 3, 4] := rfl
  simp [RemoteDockerDeployer.fetch_logs, hr, RemoteDockerDeployer.fetch_logs_loop,
    h0, h1, h2, h3, h4, hcode, hc]

/-- C9 witness: the amended statement at concrete attempts whose fifth read
succeeds. -/
theorem C9_retry_returns_fifth_witness :
    RemoteDockerDeployer.fetch_logs "test-app-container" attemptsFifthOk 5 1 =
      (some "container-log-line", 4) :=
  C9_retry_returns_fifth "test-app-container" attemptsFifthOk (by decide) (by decide)
    (by decide) (by decide) (by decide) (by decide) (by decide)

/-! ## C10 -/

set_option maxHeartbeats 1000000 in
/-- C10: the boolean returned by `CIPipeLine.execute` is determined solely by
the Build/Run/Test/Push outcomes: changing the outcomes of `stop_step`,
`remove_step` and `cleanup_local_image` (including the runner refusing to
remove a still-running container) never changes the result. -/
theorem C10_cleanup_ignored (env : CIEnv) (b : DockerImageBuilder) (s r c : Bool) :
    (CIPipeLine.execute { env with stopOk := s, removeOk := r, cleanupOk := c } b).1 =
      (CIPipeLine.execute env b).1 := by
  obtain ⟨store, buildOk, runOk, hasTest, testOk, hasRegistry, pushOk, stopOk, removeOk, cleanupOk⟩ := env
  by_cases hex : fullName b.image_name b.image_tag ∈ store <;>
    cases buildOk <;> cases runOk <;> cases hasTest <;> cases testOk <;>
    cases hasRegistry <;> cases pushOk <;>
    simp [CIPipeLine.execute, runStageList, CIPipeLine.build_step, CIPipeLine.run_step,
      CIPipeLine.test_step, CIPipeLine.push_step, CIPipeLine.stop_step, CIPipeLine.remove_step,
      CIPipeLine.mark_failed_build, DockerImageBuilder.rename_on_failure,
      CIPipeLine.cleanup_local_image, DockerImageBuilder.build_image,
      DockerImageBuilder.image_exists, hex]
